import Mathlib

/-!
Verification of the gdrive-search-agent repository: a shallow embedding of
the agent loop (src/agent/agent.py), the tool dispatch layer
(src/agent/tools.py) and the evaluation harness (src/eval/runner.py),
together with theorems settling the specified behavioural claims.

Python strings are modelled as Lean `String` (a list of unicode scalar
values); Python slicing `s[:n]` is `pySlice`, `str.upper` is `pyUpper`
(ASCII, which covers every string the scanned code compares against),
`str.strip` is `pyStrip` and `str.splitlines` is `pySplitlines` (newline
terminators, the only ones produced by the model output consumed here).
External effects (the Anthropic backend, the Google Drive service) are
modelled as explicit function parameters; Python exceptions are modelled
with `Except`, where `Except.error` is an exception propagating upward.
-/

/-! ## Python string primitives -/

/-- Python `s[:n]` on a `str`: the first `n` code points. -/
def pySlice (s : String) (n : Nat) : String := ⟨s.data.take n⟩

/-- Python `str.upper` restricted to ASCII, which is all the scanned code
compares against (`"VERDICT:"`, `"YES"`). -/
def pyUpper (s : String) : String := ⟨s.data.map Char.toUpper⟩

/-- Python `pat in s` substring containment. -/
def containsSub (s pat : String) : Bool :=
  (List.range (s.data.length + 1)).any (fun i => pat.data.isPrefixOf (s.data.drop i))

/-- Python `str.strip` (leading and trailing whitespace removed). -/
def pyStrip (s : String) : String :=
  ⟨((s.data.dropWhile Char.isWhitespace).reverse.dropWhile Char.isWhitespace).reverse⟩

/-- Helper for `pySplitlines`: accumulates the current line (reversed). -/
def pySplitlinesAux : List Char → List Char → List String
  | [], cur => if cur.isEmpty then [] else [⟨cur.reverse⟩]
  | c :: rest, cur =>
    if c = '\n' then ⟨cur.reverse⟩ :: pySplitlinesAux rest []
    else pySplitlinesAux rest (c :: cur)

/-- Python `str.splitlines` for `\n`-terminated text: splits at every
newline and, unlike `split`, produces no final empty line for trailing
newlines (`"a\n".splitlines() == ["a"]`, `"".splitlines() == []`). -/
def pySplitlines (s : String) : List String := pySplitlinesAux s.data []

/-! ## src/agent/tools.py -/

/-- The subset of Google Drive file metadata requested by `_FILE_FIELDS`
and consumed by `_fmt_file`.  `owners(displayName)` is flattened to the
first owner's display name, the only one `_fmt_file` reads; `Option.none`
models an absent key, which `_fmt_file` replaces with its `dict.get`
default. -/
structure DriveFile where
  name : String
  id : String
  mimeType : Option String
  modifiedTime : Option String
  ownerDisplayName : Option String
  webViewLink : Option String
deriving DecidableEq, Repr

/-- `tools._fmt_file`: one listing entry per file. -/
def _fmt_file (f : DriveFile) : String :=
  "- " ++ f.name ++ "\n" ++
  "  id: " ++ f.id ++ "\n" ++
  "  type: " ++ f.mimeType.getD "unknown" ++ "\n" ++
  "  modified: " ++ f.modifiedTime.getD "unknown" ++ " | owner: " ++
    f.ownerDisplayName.getD "unknown" ++ "\n" ++
  "  link: " ++ f.webViewLink.getD "N/A"

/-- `tools._MAX_LISTING_CHARS`. -/
def _MAX_LISTING_CHARS : Nat := 4000

/-- A tool's keyword arguments (the `inputs` dict of `execute_tool`),
modelled as an association list; the embedded code never inspects it,
only forwards it to the Drive operations. -/
abbrev ToolInput := List (String × String)

/-- The Google Drive side of the tool layer, abstracted at the boundary
of `search_drive` / `list_files` / `read_document`: each call either
returns a value or raises (`Except.error` = a propagating Python
exception, e.g. an HTTP error from the Drive API). -/
structure ToolEnv where
  search_drive : ToolInput → Except String (List DriveFile)
  list_files : ToolInput → Except String (List DriveFile)
  read_document : ToolInput → Except String String

/-- `tools.execute_tool`.  Faithful to the source: there is no
`try/except` in its body, so an exception raised by an underlying Drive
operation propagates out (hence the `Except`-valued result); an unknown
tool name returns the literal `"Unknown tool: <name>"` string. -/
def execute_tool (env : ToolEnv) (name : String) (inputs : ToolInput) :
    Except String String :=
  if name = "search_drive" then
    match env.search_drive inputs with
    | .error e => .error e
    | .ok results =>
      match results with
      | [] => .ok "No files found."
      | _ => .ok (pySlice (String.intercalate "\n\n" (results.map _fmt_file)) _MAX_LISTING_CHARS)
  else if name = "list_files" then
    match env.list_files inputs with
    | .error e => .error e
    | .ok results =>
      match results with
      | [] => .ok "No files found."
      | _ => .ok (pySlice (String.intercalate "\n\n" (results.map _fmt_file)) _MAX_LISTING_CHARS)
  else if name = "read_document" then
    env.read_document inputs
  else
    .ok ("Unknown tool: " ++ name)

/-! ## src/agent/agent.py -/

/-- The per-response usage counters read from `response.usage`
(`cache_read` / `cache_creation` already defaulted to 0 as the
`getattr(..., 0) or 0` in the source does). -/
structure Usage where
  input_tokens : Nat
  output_tokens : Nat
  cache_read_tokens : Nat
  cache_creation_tokens : Nat
deriving DecidableEq, Repr

def Usage.zero : Usage := ⟨0, 0, 0, 0⟩

/-- The four `total_* += ...` statements of the loop body. -/
def Usage.add (a b : Usage) : Usage :=
  ⟨a.input_tokens + b.input_tokens, a.output_tokens + b.output_tokens,
   a.cache_read_tokens + b.cache_read_tokens,
   a.cache_creation_tokens + b.cache_creation_tokens⟩

/-- An assistant response content block: `text` blocks (those with a
`.text` attribute) and `tool_use` blocks (those with `type ==
"tool_use"`, carrying `id`, `name`, `input`). -/
inductive Block where
  | text (s : String)
  | toolUse (id : String) (name : String) (input : ToolInput)
deriving DecidableEq, Repr

/-- The projection of a `tool_use` block the dispatch code reads. -/
structure ToolUse where
  id : String
  name : String
  input : ToolInput
deriving DecidableEq, Repr

/-- `[b for b in response.content if b.type == "tool_use"]`. -/
def toolUseBlocks (content : List Block) : List ToolUse :=
  content.filterMap fun b =>
    match b with
    | .toolUse i n inp => some ⟨i, n, inp⟩
    | _ => none

/-- The `answer` accumulation of the `end_turn` branch: concatenate the
text of every block that has a `.text` attribute, in order. -/
def concatTexts (content : List Block) : String :=
  content.foldl (fun acc b =>
    match b with
    | .text s => acc ++ s
    | _ => acc) ""

/-- One entry of the `tool_results` user message: the `tool_use_id`, the
result text, and whether the content was wrapped with a
`cache_control: ephemeral` marker. -/
structure ToolResultMsg where
  tool_use_id : String
  content : String
  cacheable : Bool
deriving DecidableEq, Repr

/-- One response from the Anthropic backend: its `stop_reason` string,
content blocks and usage counters. -/
structure Response where
  stop_reason : String
  content : List Block
  usage : Usage
deriving DecidableEq, Repr

/-- A message of the conversation history (`user` question, `assistant`
response content, or the `user`-role tool-results message). -/
inductive Message where
  | user (text : String)
  | assistant (content : List Block)
  | toolResults (results : List ToolResultMsg)
deriving DecidableEq, Repr

/-- The dict returned by a successful `run`. -/
structure RunResult where
  answer : String
  usage : Usage
  tool_calls : Nat
  turns : Nat
deriving DecidableEq, Repr

/-- How one call of `agent.run` ends: a returned result dict, the
`MaxTurnsExceeded` exception raised after the loop (carrying the
configured `max_turns`), or some other uncaught Python exception
propagating out of the loop body. -/
inductive RunOutcome where
  | result (r : RunResult)
  | maxTurnsExceeded (maxTurns : Nat)
  | uncaught (msg : String)
deriving DecidableEq, Repr

/-- The parallel dispatch step, lines 82-86 of agent.py.  `executor.map`
preserves input order, and `list(...)` re-raises the first exception in
input order, so the scatter/gather is observationally this sequential
fold.  `ThreadPoolExecutor(max_workers=0)` — which the source reaches
when `tool_blocks` is empty, since it passes `max_workers=len(tool_blocks)`
— raises `ValueError: max_workers must be greater than 0`. -/
def runToolBlocks (env : ToolEnv) (blocks : List ToolUse) : Except String (List String) :=
  match blocks with
  | [] => .error "ValueError: max_workers must be greater than 0"
  | _ => execSeq env blocks
where
  /-- Sequential model of `executor.map(lambda b: execute_tool(...), blocks)`. -/
  execSeq (env : ToolEnv) : List ToolUse → Except String (List String)
    | [] => .ok []
    | b :: rest =>
      match execute_tool env b.name b.input with
      | .error e => .error e
      | .ok r =>
        match execSeq env rest with
        | .error e => .error e
        | .ok rs => .ok (r :: rs)

/-- Lines 92-104 of agent.py: build the ordered `tool_results` list.  The
i-th entry pairs `tool_blocks[i].id` with `raw_results[i]`; only the
entry with `i == len(tool_blocks) - 1` whose text has length `>= 200`
gets the `cache_control: ephemeral` wrapper (recorded here as the
`cacheable` flag). -/
def buildToolResults (blocks : List ToolUse) (raws : List String) : List ToolResultMsg :=
  (blocks.zip raws).enum.map fun p =>
    { tool_use_id := p.2.1.id
      content := p.2.2
      cacheable := decide (p.1 = blocks.length - 1) && decide (200 ≤ p.2.2.length) }

/-- A system-prompt segment of the outgoing request, with its
`cache_control` marker. -/
structure SystemSegment where
  text : String
  cacheable : Bool
deriving DecidableEq, Repr

/-- Lines 43-46 of agent.py: the `system` payload is present iff the
system prompt is non-empty (Python truthiness of `str`), and when
present it always carries the `cache_control: ephemeral` marker. -/
def systemPayload (systemPrompt : String) : Option SystemSegment :=
  if systemPrompt = "" then none else some ⟨systemPrompt, true⟩

/-- The `while turns < max_turns` loop of `agent.run`, with
`fuel = max_turns - turns` (so the loop guard is `fuel > 0`); checked
before every backend call.  The backend is a function of the current
message history.  Alongside the outcome it returns the number of backend
calls made (`calls` is incremented exactly at the call site).  A
`stop_reason` other than `end_turn`/`tool_use` takes the final `break`,
which lands on the `raise MaxTurnsExceeded` after the loop. -/
def runFrom (env : ToolEnv) (backend : List Message → Response) (maxTurns : Nat) :
    Nat → Nat → Nat → Nat → List Message → Usage → RunOutcome × Nat
  | 0, _, calls, _, _, _ => (.maxTurnsExceeded maxTurns, calls)
  | fuel + 1, turns, calls, toolCalls, msgs, acc =>
    let resp := backend msgs
    let acc2 := acc.add resp.usage
    if resp.stop_reason = "end_turn" then
      (.result { answer := concatTexts resp.content, usage := acc2,
                 tool_calls := toolCalls, turns := turns + 1 }, calls + 1)
    else if resp.stop_reason = "tool_use" then
      let blocks := toolUseBlocks resp.content
      match runToolBlocks env blocks with
      | .error e => (.uncaught e, calls + 1)
      | .ok raws =>
        runFrom env backend maxTurns fuel (turns + 1) (calls + 1)
          (toolCalls + blocks.length)
          (msgs ++ [.assistant resp.content,
                    .toolResults (buildToolResults blocks raws)]) acc2
    else
      (.maxTurnsExceeded maxTurns, calls + 1)

/-- `agent.run`: history starts as the single user question, all counters
at zero. -/
def run (env : ToolEnv) (backend : List Message → Response) (question : String)
    (maxTurns : Nat) : RunOutcome × Nat :=
  runFrom env backend maxTurns maxTurns 0 0 0 [.user question] Usage.zero

/-! ## src/eval/runner.py -/

/-- `_JUDGE_PROMPT.format(question=..., expected=..., actual=...)`. -/
def judgePrompt (question expected actual : String) : String :=
  "You are an expert evaluator. Assess whether the model answer correctly answers the question.\n\n" ++
  "Question: " ++ question ++ "\n" ++
  "Expected answer: " ++ expected ++ "\n" ++
  "Model answer: " ++ actual ++ "\n\n" ++
  "Reason step by step:\n" ++
  "1. What is the core factual claim in the expected answer?\n" ++
  "2. Does the model answer convey the same fact, even if worded differently or with more detail?\n" ++
  "3. Does the model answer contradict or omit the expected fact?\n\n" ++
  "After your reasoning, output your verdict on the very last line in exactly this format:\n" ++
  "VERDICT: YES\nor\nVERDICT: NO"

/-- The `for line in reversed(text.splitlines())` scan of `_is_correct`:
the argument is the already-reversed line list. -/
def scanVerdictLines : List String → Bool
  | [] => false
  | line :: rest =>
    if containsSub (pyUpper line) "VERDICT:" then containsSub (pyUpper line) "YES"
    else scanVerdictLines rest

/-- The verdict extraction of `_is_correct` applied to the judge's output
text: strip, split into lines, scan from the end; the containment tests
are against `line.upper()` as in the source. -/
def extractVerdict (text : String) : Bool :=
  scanVerdictLines (pySplitlines (pyStrip text)).reverse

/-- `runner._is_correct`, with the judge model call abstracted as a
function from the formatted prompt to the judge's output text
(`msg.content[0].text`).  The produced answer is truncated to
`response[:600]` before formatting. -/
def _is_correct (judge : String → String) (question expected response : String) : Bool :=
  extractVerdict (judge (judgePrompt question expected (pySlice response 600)))

/-- A benchmark question row from questions.json. -/
structure Question where
  id : String
  question : String
  expected_answer : String
deriving DecidableEq, Repr

/-- The result dict produced by `agent.run` as `_run_prompt` reads it. -/
structure RunDict where
  answer : String
  input_tokens : Nat
  output_tokens : Nat
  cache_read_tokens : Nat
  cache_creation_tokens : Nat
  tool_calls : Nat
  turns : Nat
deriving DecidableEq, Repr

/-- What the `try` block of `_run_prompt` produced for one question:
either a run result plus the judge's boolean, or an exception `e` caught
by the `except` arm (raised by `run` or by `_is_correct`). -/
inductive QOutcome where
  | ok (result : RunDict) (correct : Bool)
  | error (msg : String)
deriving DecidableEq, Repr

/-- One row appended to `results` in `_run_prompt`. -/
structure Row where
  id : String
  question : String
  expected_answer : String
  response : String
  correct : Bool
  input_tokens : Nat
  output_tokens : Nat
  cache_read_tokens : Nat
  cache_creation_tokens : Nat
  tool_calls : Nat
  turns : Nat
deriving DecidableEq, Repr

/-- The row built for one question: on an exception the `except` arm
substitutes the failure dict `{"answer": f"ERROR: {e}", ...}` with all
counters 0 and `correct = False` before the unconditional append. -/
def rowOf (q : Question) (o : QOutcome) : Row :=
  match o with
  | .ok r c =>
    { id := q.id, question := q.question, expected_answer := q.expected_answer,
      response := r.answer, correct := c,
      input_tokens := r.input_tokens, output_tokens := r.output_tokens,
      cache_read_tokens := r.cache_read_tokens,
      cache_creation_tokens := r.cache_creation_tokens,
      tool_calls := r.tool_calls, turns := r.turns }
  | .error e =>
    { id := q.id, question := q.question, expected_answer := q.expected_answer,
      response := "ERROR: " ++ e, correct := false,
      input_tokens := 0, output_tokens := 0,
      cache_read_tokens := 0, cache_creation_tokens := 0,
      tool_calls := 0, turns := 0 }

/-- `runner._run_prompt` over the question list, with each question's run
and judge outcome supplied by the paired `QOutcome`: one row is appended
per question, unconditionally. -/
def _run_prompt (qs : List (Question × QOutcome)) : List Row :=
  qs.map fun p => rowOf p.1 p.2

/-- The per-variant aggregate record of `runner._averages`. -/
structure Averages where
  accuracy : ℚ
  avg_input_tokens : ℚ
  avg_output_tokens : ℚ
  avg_cache_read_tokens : ℚ
  avg_cache_creation_tokens : ℚ
  avg_tool_calls : ℚ
  avg_turns : ℚ
deriving DecidableEq, Repr

/-- `runner._averages`: every mean divides by `n = len(results)`
(`sum(r["correct"])` counts the `True` rows); `{}` for an empty list is
modelled as `none`. -/
def _averages (results : List Row) : Option Averages :=
  if results.length = 0 then none
  else some
    { accuracy := ((results.countP fun r => r.correct : ℕ) : ℚ) / (results.length : ℚ)
      avg_input_tokens := (((results.map fun r => r.input_tokens).sum : ℕ) : ℚ) / (results.length : ℚ)
      avg_output_tokens := (((results.map fun r => r.output_tokens).sum : ℕ) : ℚ) / (results.length : ℚ)
      avg_cache_read_tokens := (((results.map fun r => r.cache_read_tokens).sum : ℕ) : ℚ) / (results.length : ℚ)
      avg_cache_creation_tokens := (((results.map fun r => r.cache_creation_tokens).sum : ℕ) : ℚ) / (results.length : ℚ)
      avg_tool_calls := (((results.map fun r => r.tool_calls).sum : ℕ) : ℚ) / (results.length : ℚ)
      avg_turns := (((results.map fun r => r.turns).sum : ℕ) : ℚ) / (results.length : ℚ) }

/-! ## Helper lemmas -/

theorem pySlice_length_le (s : String) (n : Nat) : (pySlice s n).length ≤ n := by
  show (s.data.take n).length ≤ n
  exact (List.length_take n s.data).le.trans (Nat.min_le_left _ _)

/-! ## Concrete fixtures used by witnesses and counterexamples -/

/-- A Drive layer whose operations all succeed (searches find nothing). -/
def env0 : ToolEnv :=
  { search_drive := fun _ => .ok []
    list_files := fun _ => .ok []
    read_document := fun _ => .ok "doc" }

def usage1 : Usage := ⟨10, 5, 0, 0⟩

/-- A backend stub that requests the `list_files` tool on every turn. -/
def backendToolUse : List Message → Response :=
  fun _ => { stop_reason := "tool_use",
             content := [.toolUse "toolu_01" "list_files" []],
             usage := usage1 }

/-- A backend stub that stops with `max_tokens` on the first turn, having
produced some text. -/
def backendTruncated : List Message → Response :=
  fun _ => { stop_reason := "max_tokens",
             content := [.text "draft answer"],
             usage := usage1 }

/-! ## C1: turn budget -/

/-- Loop invariant for C1: when every backend response requests tools and
every dispatch succeeds, the loop consumes all its fuel, making one
backend call per unit of fuel, and ends at the `MaxTurnsExceeded` raise. -/
theorem runFrom_all_tool_use (env : ToolEnv) (backend : List Message → Response)
    (maxTurns : Nat)
    (hstop : ∀ msgs, (backend msgs).stop_reason = "tool_use")
    (hdisp : ∀ msgs, ∃ raws,
      runToolBlocks env (toolUseBlocks (backend msgs).content) = .ok raws) :
    ∀ fuel turns calls toolCalls msgs acc,
      runFrom env backend maxTurns fuel turns calls toolCalls msgs acc =
        (.maxTurnsExceeded maxTurns, calls + fuel) := by
  intro fuel
  induction fuel with
  | zero => intro turns calls toolCalls msgs acc; rfl
  | succ n ih =>
    intro turns calls toolCalls msgs acc
    obtain ⟨raws, hraws⟩ := hdisp msgs
    have h1 : ¬ ((backend msgs).stop_reason = "end_turn") := by
      rw [hstop msgs]; decide
    simp only [runFrom, if_neg h1, if_pos (hstop msgs), hraws]
    rw [ih]
    congr 1
    omega

/-- C1: for every `max_turns = N ≥ 1`, a run whose backend always answers
with the `tool_use` stop condition (and whose tool dispatches complete)
makes exactly `N` backend calls — the budget guard runs before each call
— and then terminates by raising `MaxTurnsExceeded` carrying the
configured `max_turns` value. -/
theorem run_budget_exhaustion (env : ToolEnv) (backend : List Message → Response)
    (question : String) (maxTurns : Nat) (_hN : 1 ≤ maxTurns)
    (hstop : ∀ msgs, (backend msgs).stop_reason = "tool_use")
    (hdisp : ∀ msgs, ∃ raws,
      runToolBlocks env (toolUseBlocks (backend msgs).content) = .ok raws) :
    run env backend question maxTurns = (.maxTurnsExceeded maxTurns, maxTurns) := by
  unfold run
  rw [runFrom_all_tool_use env backend maxTurns hstop hdisp]
  rw [Nat.zero_add]

theorem run_budget_exhaustion_witness :
    run env0 backendToolUse "q" 3 = (.maxTurnsExceeded 3, 3) :=
  run_budget_exhaustion env0 backendToolUse "q" 3 (by decide)
    (fun _ => rfl) (fun _ => ⟨["No files found."], rfl⟩)

/-! ## C2: non-tool, non-end stop conditions -/

/-- C2 counterexample: a backend whose first response stops with
`max_tokens` and text `"draft answer"`.  The claim predicts a normal
completion with that text as the answer; the code instead takes the
`break` and raises `MaxTurnsExceeded`. -/
theorem run_other_stop_counterexample :
    run env0 backendTruncated "q" 5 = (.maxTurnsExceeded 5, 1) ∧
    (run env0 backendTruncated "q" 5).1 ≠
      .result { answer := "draft answer", usage := usage1,
                tool_calls := 0, turns := 1 } := by
  constructor
  · rfl
  · decide

/-- C2 amended: a turn whose backend response has a stop condition other
than `end_turn` and `tool_use` makes that one backend call, does not
retry, and terminates the run by raising `MaxTurnsExceeded` (the `break`
falls through to the raise after the loop); the text produced on that
turn is discarded. -/
theorem run_other_stop_aborts (env : ToolEnv) (backend : List Message → Response)
    (maxTurns fuel turns calls toolCalls : Nat) (msgs : List Message) (acc : Usage)
    (h1 : (backend msgs).stop_reason ≠ "end_turn")
    (h2 : (backend msgs).stop_reason ≠ "tool_use") :
    runFrom env backend maxTurns (fuel + 1) turns calls toolCalls msgs acc =
      (.maxTurnsExceeded maxTurns, calls + 1) := by
  simp only [runFrom, if_neg h1, if_neg h2]

theorem run_other_stop_aborts_witness :
    runFrom env0 backendTruncated 5 5 0 0 0 [.user "q"] Usage.zero =
      (.maxTurnsExceeded 5, 1) :=
  run_other_stop_aborts env0 backendTruncated 5 4 0 0 0 [.user "q"] Usage.zero
    (by decide) (by decide)

/-! ## Dispatch-step lemmas shared by C3 and C5 -/

/-- A successful sequential execution produces one raw result per block. -/
theorem execSeq_length (env : ToolEnv) :
    ∀ (blocks : List ToolUse) (raws : List String),
      runToolBlocks.execSeq env blocks = .ok raws → raws.length = blocks.length := by
  intro blocks
  induction blocks with
  | nil =>
    intro raws h
    simp only [runToolBlocks.execSeq] at h
    cases h
    rfl
  | cons b rest ih =>
    intro raws h
    simp only [runToolBlocks.execSeq] at h
    cases hexec : execute_tool env b.name b.input with
    | error e => rw [hexec] at h; cases h
    | ok r =>
      rw [hexec] at h
      cases hrest : runToolBlocks.execSeq env rest with
      | error e => rw [hrest] at h; cases h
      | ok rs =>
        rw [hrest] at h
        cases h
        simp [ih rs hrest]

theorem buildToolResults_length (blocks : List ToolUse) (raws : List String) :
    (buildToolResults blocks raws).length = min blocks.length raws.length := by
  simp [buildToolResults]

/-- Pointwise description of the `tool_results` entries built at lines
92-104 of agent.py. -/
theorem buildToolResults_get (blocks : List ToolUse) (raws : List String) (i : Nat)
    (hi : i < (buildToolResults blocks raws).length)
    (hb : i < blocks.length) (hr : i < raws.length) :
    (buildToolResults blocks raws).get ⟨i, hi⟩ =
      { tool_use_id := (blocks.get ⟨i, hb⟩).id
        content := raws.get ⟨i, hr⟩
        cacheable := decide (i = blocks.length - 1) &&
          decide (200 ≤ (raws.get ⟨i, hr⟩).length) } := by
  simp [buildToolResults, List.get_eq_getElem, List.getElem_map, List.getElem_enum,
    List.getElem_zip]

/-! ## C3: batch dispatch length and order -/

/-- C3 counterexample: a batch of size `K = 0`.  The claim predicts an
output of exactly 0 tool-result blocks; the code instead constructs
`ThreadPoolExecutor(max_workers=0)`, which raises `ValueError`, so no
output is produced at all. -/
theorem dispatch_empty_batch_counterexample :
    runToolBlocks env0 [] = .error "ValueError: max_workers must be greater than 0" :=
  rfl

/-- C3 amended: for every batch of size `K ≥ 1` whose invocations all
execute without raising, the dispatch step produces exactly `K`
tool-result blocks and `output[i].tool_use_id = input[i].id` for every
`i`, output order equal to input order; a batch of size 0 instead raises
`ValueError` from `ThreadPoolExecutor(max_workers=0)`. -/
theorem dispatch_length_and_order (env : ToolEnv) (blocks : List ToolUse)
    (raws : List String) (hne : blocks ≠ [])
    (h : runToolBlocks env blocks = .ok raws) :
    (buildToolResults blocks raws).length = blocks.length ∧
    ∀ i (h1 : i < (buildToolResults blocks raws).length) (h2 : i < blocks.length),
      ((buildToolResults blocks raws).get ⟨i, h1⟩).tool_use_id =
        (blocks.get ⟨i, h2⟩).id := by
  have hexec : runToolBlocks.execSeq env blocks = .ok raws := by
    cases blocks with
    | nil => exact absurd rfl hne
    | cons b rest => simpa [runToolBlocks] using h
  have hlen : raws.length = blocks.length := execSeq_length env blocks raws hexec
  constructor
  · rw [buildToolResults_length, hlen, Nat.min_self]
  · intro i h1 h2
    have hr : i < raws.length := by omega
    rw [buildToolResults_get blocks raws i h1 h2 hr]

theorem dispatch_length_and_order_witness :
    (buildToolResults [⟨"toolu_01", "list_files", []⟩] ["No files found."]).length = 1 ∧
    ((buildToolResults [⟨"toolu_01", "list_files", []⟩] ["No files found."]).get
        ⟨0, by decide⟩).tool_use_id = "toolu_01" := by
  have h := dispatch_length_and_order env0 [⟨"toolu_01", "list_files", []⟩]
    ["No files found."] (by decide) rfl
  exact ⟨h.1, h.2 0 (by decide) (by decide)⟩

/-! ## C4: unknown tool and tool exceptions -/

/-- A Drive layer whose `search_drive` raises. -/
def envRaises : ToolEnv :=
  { search_drive := fun _ => .error "RuntimeError: boom"
    list_files := fun _ => .ok []
    read_document := fun _ => .ok "doc" }

/-- C4 counterexample: `execute_tool` has no `try/except`, so an
exception raised by the `search_drive` implementation propagates out of
`execute_tool` and out of the dispatch of the whole batch, instead of
being converted to an error-string result as the claim states. -/
theorem tool_exception_propagates_counterexample :
    execute_tool envRaises "search_drive" [] = .error "RuntimeError: boom" ∧
    runToolBlocks envRaises [⟨"toolu_02", "search_drive", []⟩] =
      .error "RuntimeError: boom" :=
  ⟨rfl, rfl⟩

/-- C4 amended: an unknown tool name yields the literal
`"Unknown tool: <name>"` text result rather than raising; but an
exception raised by a tool implementation is not caught at the
dispatcher boundary — it propagates out of `execute_tool` and aborts the
batch. -/
theorem unknown_tool_and_exception_policy (env : ToolEnv) (name : String)
    (inp : ToolInput) (tid e : String)
    (h1 : name ≠ "search_drive") (h2 : name ≠ "list_files")
    (h3 : name ≠ "read_document")
    (hraise : env.search_drive inp = .error e) :
    execute_tool env name inp = .ok ("Unknown tool: " ++ name) ∧
    execute_tool env "search_drive" inp = .error e ∧
    runToolBlocks env [⟨tid, "search_drive", inp⟩] = .error e := by
  refine ⟨?_, ?_, ?_⟩
  · simp [execute_tool, h1, h2, h3]
  · simp [execute_tool, hraise]
  · simp [runToolBlocks, runToolBlocks.execSeq, execute_tool, hraise]

theorem unknown_tool_and_exception_policy_witness :
    execute_tool envRaises "frobnicate" [] = .ok ("Unknown tool: " ++ "frobnicate") ∧
    execute_tool envRaises "search_drive" [] = .error "RuntimeError: boom" ∧
    runToolBlocks envRaises [⟨"toolu_02", "search_drive", []⟩] =
      .error "RuntimeError: boom" :=
  unknown_tool_and_exception_policy envRaises "frobnicate" [] "toolu_02"
    "RuntimeError: boom" (by decide) (by decide) (by decide) rfl

/-! ## C5: cache-hint policy -/

/-- C5: the system payload is present (and then always marked cacheable)
iff the system prompt is non-empty; and any tool result of a batch that
carries the cache marker is the last one of the batch and has content of
length at least 200 — hence at most one marked result per batch and no
earlier result ever marked. -/
theorem cache_hint_policy (p : String) (blocks : List ToolUse) (raws : List String)
    (i : Nat) (hi : i < (buildToolResults blocks raws).length)
    (hc : ((buildToolResults blocks raws).get ⟨i, hi⟩).cacheable = true) :
    ((systemPayload p).isSome ↔ p ≠ "") ∧
    (systemPayload p).all (fun seg => seg.cacheable) = true ∧
    i = blocks.length - 1 ∧
    200 ≤ ((buildToolResults blocks raws).get ⟨i, hi⟩).content.length := by
  have hlen := buildToolResults_length blocks raws
  have hb : i < blocks.length := by omega
  have hr : i < raws.length := by omega
  rw [buildToolResults_get blocks raws i hi hb hr] at hc ⊢
  simp only [Bool.and_eq_true, decide_eq_true_eq] at hc
  refine ⟨?_, ?_, hc.1, hc.2⟩
  · unfold systemPayload
    split <;> simp_all
  · unfold systemPayload
    split <;> simp

def sysPrompt0 : String := "You search Google Drive."

def bigText : String := ⟨List.replicate 200 'a'⟩

def blocks2 : List ToolUse := [⟨"t1", "search_drive", []⟩, ⟨"t2", "read_document", []⟩]

def raws2 : List String := ["short", bigText]

set_option maxRecDepth 4000 in
theorem cache_hint_policy_witness :
    ((systemPayload sysPrompt0).isSome ↔ sysPrompt0 ≠ "") ∧
    (systemPayload sysPrompt0).all (fun seg => seg.cacheable) = true ∧
    (1 : Nat) = blocks2.length - 1 ∧
    200 ≤ ((buildToolResults blocks2 raws2).get ⟨1, by decide⟩).content.length :=
  cache_hint_policy sysPrompt0 blocks2 raws2 1 (by decide) (by decide)

/-! ## C6: verdict extraction -/

/-- Modelled from the claim's extraction rule, as the refinement
reference: scan the output's lines from the end; the first line (from
the end) containing the verdict marker decides the boolean — true iff
that line contains the affirmative token — and if no line contains the
marker the verdict is false.  As in the source, both containment tests
are evaluated against the upper-cased line (`line.upper()`). -/
def verdictRuleSpec (text : String) : Bool :=
  match (pySplitlines (pyStrip text)).reverse.find?
      (fun l => containsSub (pyUpper l) "VERDICT:") with
  | some l => containsSub (pyUpper l) "YES"
  | none => false

/-- The reversed-line scan is the first-match rule. -/
theorem scanVerdictLines_eq_find (ls : List String) :
    scanVerdictLines ls =
      match ls.find? (fun l => containsSub (pyUpper l) "VERDICT:") with
      | some l => containsSub (pyUpper l) "YES"
      | none => false := by
  induction ls with
  | nil => rfl
  | cons l rest ih =>
    cases h : containsSub (pyUpper l) "VERDICT:" with
    | true => simp [scanVerdictLines, List.find?, h]
    | false =>
      have hb : ¬ (containsSub (pyUpper l) "VERDICT:" = true) := by simp [h]
      simp only [scanVerdictLines, if_neg hb, List.find?, h]
      exact ih

/-- C6: `_is_correct` computes its verdict exactly by the extraction
rule: scanning the judge's output text from the end, the first line
containing the verdict marker decides the boolean (true iff it contains
the affirmative token), and with no marker line anywhere the verdict is
false — a total function, never an exception and never an unknown
value. -/
theorem judge_verdict_extraction (judge : String → String)
    (question expected response : String) :
    _is_correct judge question expected response =
      verdictRuleSpec (judge (judgePrompt question expected (pySlice response 600))) := by
  unfold _is_correct extractVerdict verdictRuleSpec
  exact scanVerdictLines_eq_find _

/-! ## C7: failure rows and aggregate denominators -/

/-- C7: a question whose run (or judge call) raised contributes the
recorded failure row — answer text `"ERROR: <e>"`, `correct = false`,
every usage counter 0 — `_run_prompt` appends exactly one row per
question regardless of outcome, and every per-variant mean of
`_averages` divides by the full row count, so failure rows stay in the
denominator of accuracy and of each mean counter. -/
theorem eval_failure_rows (qs : List (Question × QOutcome)) (hne : qs ≠ [])
    (q : Question) (e : String) :
    rowOf q (.error e) =
      { id := q.id, question := q.question, expected_answer := q.expected_answer,
        response := "ERROR: " ++ e, correct := false, input_tokens := 0,
        output_tokens := 0, cache_read_tokens := 0, cache_creation_tokens := 0,
        tool_calls := 0, turns := 0 } ∧
    (_run_prompt qs).length = qs.length ∧
    _averages (_run_prompt qs) = some
      { accuracy := (((_run_prompt qs).countP fun r => r.correct : ℕ) : ℚ) / (qs.length : ℚ)
        avg_input_tokens := ((((_run_prompt qs).map fun r => r.input_tokens).sum : ℕ) : ℚ) / (qs.length : ℚ)
        avg_output_tokens := ((((_run_prompt qs).map fun r => r.output_tokens).sum : ℕ) : ℚ) / (qs.length : ℚ)
        avg_cache_read_tokens := ((((_run_prompt qs).map fun r => r.cache_read_tokens).sum : ℕ) : ℚ) / (qs.length : ℚ)
        avg_cache_creation_tokens := ((((_run_prompt qs).map fun r => r.cache_creation_tokens).sum : ℕ) : ℚ) / (qs.length : ℚ)
        avg_tool_calls := ((((_run_prompt qs).map fun r => r.tool_calls).sum : ℕ) : ℚ) / (qs.length : ℚ)
        avg_turns := ((((_run_prompt qs).map fun r => r.turns).sum : ℕ) : ℚ) / (qs.length : ℚ) } := by
  have hlen : (_run_prompt qs).length = qs.length := by
    simp [_run_prompt]
  have hnz : ¬ ((_run_prompt qs).length = 0) := by
    rw [hlen]
    intro h0
    exact hne (List.eq_nil_of_length_eq_zero h0)
  refine ⟨rfl, hlen, ?_⟩
  unfold _averages
  rw [if_neg hnz, hlen]

def q1 : Question := ⟨"Q1", "What is the project deadline?", "March 3"⟩

def q2 : Question := ⟨"Q2", "Who owns the notes doc?", "Angelo"⟩

def rd1 : RunDict := ⟨"The deadline is March 3.", 120, 30, 0, 0, 2, 3⟩

/-- One judged success and one aborted run, as `_run_prompt` sees them. -/
def qs0 : List (Question × QOutcome) :=
  [(q1, .ok rd1 true), (q2, .error "Exceeded max_turns=5")]

theorem eval_failure_rows_witness :
    rowOf q2 (.error "Exceeded max_turns=5") =
      { id := q2.id, question := q2.question, expected_answer := q2.expected_answer,
        response := "ERROR: " ++ "Exceeded max_turns=5", correct := false,
        input_tokens := 0, output_tokens := 0, cache_read_tokens := 0,
        cache_creation_tokens := 0, tool_calls := 0, turns := 0 } ∧
    (_run_prompt qs0).length = qs0.length ∧
    _averages (_run_prompt qs0) = some
      { accuracy := (((_run_prompt qs0).countP fun r => r.correct : ℕ) : ℚ) / (qs0.length : ℚ)
        avg_input_tokens := ((((_run_prompt qs0).map fun r => r.input_tokens).sum : ℕ) : ℚ) / (qs0.length : ℚ)
        avg_output_tokens := ((((_run_prompt qs0).map fun r => r.output_tokens).sum : ℕ) : ℚ) / (qs0.length : ℚ)
        avg_cache_read_tokens := ((((_run_prompt qs0).map fun r => r.cache_read_tokens).sum : ℕ) : ℚ) / (qs0.length : ℚ)
        avg_cache_creation_tokens := ((((_run_prompt qs0).map fun r => r.cache_creation_tokens).sum : ℕ) : ℚ) / (qs0.length : ℚ)
        avg_tool_calls := ((((_run_prompt qs0).map fun r => r.tool_calls).sum : ℕ) : ℚ) / (qs0.length : ℚ)
        avg_turns := ((((_run_prompt qs0).map fun r => r.turns).sum : ℕ) : ℚ) / (qs0.length : ℚ) } :=
  eval_failure_rows qs0 (by decide) q2 "Exceeded max_turns=5"

/-! ## C8: judge sees at most 600 characters -/

theorem pySlice_idem (s : String) (n : Nat) : pySlice (pySlice s n) n = pySlice s n := by
  show String.mk ((s.data.take n).take n) = String.mk (s.data.take n)
  rw [List.take_take, Nat.min_self]

/-- C8: `_is_correct` formats the judge prompt from `response[:600]`, so
the verdict is unchanged when the response is replaced by its first 600
characters — content beyond the first 600 characters can never influence
the verdict, whatever the judge model does with the prompt. -/
theorem judge_truncation (judge : String → String)
    (question expected response : String) :
    _is_correct judge question expected response =
      _is_correct judge question expected (pySlice response 600) := by
  unfold _is_correct
  rw [pySlice_idem]

/-! ## C9: listing results capped at 4000 characters -/

/-- C9: whenever `search_drive` or `list_files` returns a non-empty file
sequence, the text handed back to the model is the joined listing
truncated to `_MAX_LISTING_CHARS = 4000` characters, hence of length at
most 4000 regardless of the number or size of the files. -/
theorem listing_truncated (env : ToolEnv) (inp : ToolInput) (fs : List DriveFile)
    (hne : fs ≠ []) :
    (env.search_drive inp = .ok fs →
      execute_tool env "search_drive" inp =
        .ok (pySlice (String.intercalate "\n\n" (fs.map _fmt_file)) _MAX_LISTING_CHARS) ∧
      (pySlice (String.intercalate "\n\n" (fs.map _fmt_file)) _MAX_LISTING_CHARS).length ≤ 4000) ∧
    (env.list_files inp = .ok fs →
      execute_tool env "list_files" inp =
        .ok (pySlice (String.intercalate "\n\n" (fs.map _fmt_file)) _MAX_LISTING_CHARS) ∧
      (pySlice (String.intercalate "\n\n" (fs.map _fmt_file)) _MAX_LISTING_CHARS).length ≤ 4000) := by
  cases fs with
  | nil => exact absurd rfl hne
  | cons f rest =>
    constructor
    · intro h
      refine ⟨?_, pySlice_length_le _ _⟩
      unfold execute_tool
      rw [if_pos rfl, h]
    · intro h
      refine ⟨?_, pySlice_length_le _ _⟩
      unfold execute_tool
      rw [if_neg (by decide), if_pos rfl, h]

def file1 : DriveFile :=
  ⟨"Notes.txt", "abc123", some "text/plain", some "2024-01-01T00:00:00Z",
   some "Angelo", some "https://drive.example/abc123"⟩

/-- A Drive layer that finds exactly one file. -/
def env1 : ToolEnv :=
  { search_drive := fun _ => .ok [file1]
    list_files := fun _ => .ok [file1]
    read_document := fun _ => .ok "doc" }

theorem listing_truncated_witness :
    (execute_tool env1 "search_drive" [] =
        .ok (pySlice (String.intercalate "\n\n" ([file1].map _fmt_file)) _MAX_LISTING_CHARS) ∧
      (pySlice (String.intercalate "\n\n" ([file1].map _fmt_file)) _MAX_LISTING_CHARS).length ≤ 4000) ∧
    (execute_tool env1 "list_files" [] =
        .ok (pySlice (String.intercalate "\n\n" ([file1].map _fmt_file)) _MAX_LISTING_CHARS) ∧
      (pySlice (String.intercalate "\n\n" ([file1].map _fmt_file)) _MAX_LISTING_CHARS).length ≤ 4000) := by
  have h := listing_truncated env1 [] [file1] (by decide)
  exact ⟨h.1 rfl, h.2 rfl⟩

/-! ## C10: empty listings yield visible text -/

/-- C10: when the underlying operation yields an empty file sequence,
`execute_tool` returns the exact non-empty string `"No files found."`
for both `search_drive` and `list_files`. -/
theorem empty_listing_message (env : ToolEnv) (inp : ToolInput) :
    (env.search_drive inp = .ok [] →
      execute_tool env "search_drive" inp = .ok "No files found.") ∧
    (env.list_files inp = .ok [] →
      execute_tool env "list_files" inp = .ok "No files found.") := by
  constructor
  · intro h
    unfold execute_tool
    rw [if_pos rfl, h]
  · intro h
    unfold execute_tool
    rw [if_neg (by decide), if_pos rfl, h]

theorem empty_listing_message_witness :
    execute_tool env0 "search_drive" [] = .ok "No files found." ∧
    execute_tool env0 "list_files" [] = .ok "No files found." := by
  have h := empty_listing_message env0 []
  exact ⟨h.1 rfl, h.2 rfl⟩
